import Mathlib

/-!
Shallow embedding of the client-side barcode capture and detection pipeline
of the pantry repository, together with theorems checking the
natural-language specification against it.

The embedded functions follow the current hook sources:
the scanner state hook (useBarcodeScannerState, the variant with item
lookup), the camera hook (useCamera), the detection feedback hook
(useDetectionFeedback), the Html5Qrcode adapter hook (useHtml5Scanner,
the Html5Qrcode variant with the initialization guard, which is the one
the page module type-checks against and the one the repository
postmortem records as the fix), and the manual capture hook
(useManualBarcodeCapture).

Browser and network effects are made explicit: fallible collaborators
(getUserMedia, the backend endpoints, the scanning library calls) are
oracles in an environment record, and the I/O a call performs is
returned as an explicit effect trace, so that statements such as
"performs no network I/O" are statements about the trace.
-/

namespace Pantry

/-! Data model, following lib/api/barcode.ts -/

/-- Item record returned by the items endpoint (interface ItemData). -/
structure ItemData where
  id : Nat
  barcode : String
  title : String
  description : String
  aliasName : String
  brand : Option Nat
deriving Repr, DecidableEq

/-- Opaque stand-in for the product_data JSON object. -/
abbrev ProductData := List (String × String)

/-- Response of POST /barcode/process/ (interface ProcessBarcodeResult).
The barcode_code field is optional in the TypeScript interface. -/
structure ProcessBarcodeResult where
  detected : Bool
  barcode_code : Option String
deriving Repr, DecidableEq

/-- Response of GET /items/{code}/ (return type of lookupItemByUPC). -/
structure ItemLookup where
  created : Bool
  item : ItemData
  product_data : ProductData
deriving Repr, DecidableEq

/-- Outcome of an awaited fallible call: resolves with a value, or
rejects with an error message (the message of the thrown Error). -/
inductive FetchResult (α : Type) where
  | ok (val : α)
  | err (msg : String)
deriving Repr, DecidableEq

/-- JavaScript truthiness of the optional string result.barcode_code:
undefined and the empty string are falsy. -/
def truthyCode : Option String → Bool
  | none => false
  | some s => !(s == "")

/-! Scanner State Controller: useBarcodeScannerState -/

/-- State owned by useBarcodeScannerState: the useState cells plus the
lastProcessedTimeRef throttle timestamp (milliseconds). -/
structure ScannerState where
  barcodeCode : Option String
  itemData : Option ItemData
  productData : Option ProductData
  loading : Bool
  processing : Bool
  lookupError : Option String
  lastProcessedTime : Nat
deriving Repr, DecidableEq

/-- State of the hook right after mount: everything null or false,
throttle timestamp zero. -/
def initialScannerState : ScannerState :=
  { barcodeCode := none, itemData := none, productData := none,
    loading := false, processing := false, lookupError := none,
    lastProcessedTime := 0 }

/-- The I/O a processing call can perform: drawing and encoding the
video frame, the POST /barcode/process/ request, and the
GET /items/{code}/ lookup request. -/
inductive IOEffect where
  | frameCapture
  | postBarcodeProcess
  | getItemLookup
deriving Repr, DecidableEq

/-- Environment of one processDetectedBarcodeAsync call: the current
Date.now clock, whether canvas.getContext succeeds, and the outcomes of
the two backend requests were they to be issued. -/
structure ProcessEnv where
  now : Nat
  canvasCtx : Bool
  processResult : FetchResult ProcessBarcodeResult
  lookupResult : FetchResult ItemLookup
deriving Repr, DecidableEq

/-- Embedding of processDetectedBarcodeAsync. Returns the value the
promise settles with (Except.error for a rejection), the state of the
hook on exit, and the trace of I/O performed. Mirrors the source:
throttle check against lastProcessedTimeRef, timestamp update before
the try block, setLoading and setLookupError on entry, canvas context
check, frame capture, backend processing call, conditional item lookup
whose failure is recorded in lookupError, rethrow of other errors, and
setLoading false in the finally block. -/
def processDetectedBarcodeAsync (env : ProcessEnv) (s : ScannerState) :
    Except String Bool × ScannerState × List IOEffect :=
  if env.now - s.lastProcessedTime < 2000 then
    (Except.ok false, s, [])
  else
    let s₁ : ScannerState :=
      { s with lastProcessedTime := env.now, loading := true, lookupError := none }
    if env.canvasCtx = false then
      (Except.error "Could not get canvas context", { s₁ with loading := false }, [])
    else
      match env.processResult with
      | FetchResult.err m =>
          (Except.error m, { s₁ with loading := false },
            [IOEffect.frameCapture, IOEffect.postBarcodeProcess])
      | FetchResult.ok r =>
          if r.detected && truthyCode r.barcode_code then
            let s₂ : ScannerState := { s₁ with barcodeCode := r.barcode_code }
            match env.lookupResult with
            | FetchResult.ok l =>
                (Except.ok true,
                  { s₂ with itemData := some l.item,
                            productData := some l.product_data, loading := false },
                  [IOEffect.frameCapture, IOEffect.postBarcodeProcess,
                   IOEffect.getItemLookup])
            | FetchResult.err m =>
                (Except.ok true,
                  { s₂ with lookupError := some m, loading := false },
                  [IOEffect.frameCapture, IOEffect.postBarcodeProcess,
                   IOEffect.getItemLookup])
          else
            (Except.ok false, { s₁ with loading := false },
              [IOEffect.frameCapture, IOEffect.postBarcodeProcess])

/-- Embedding of lookupItemByBarcodeAsync: sets loading, clears
lookupError, stores the barcode, performs the item lookup recording a
failure in lookupError, and clears loading in the finally block. The
inner catch absorbs the lookup rejection, so the promise always
resolves. -/
def lookupItemByBarcodeAsync (lookupResult : FetchResult ItemLookup)
    (barcode : String) (s : ScannerState) :
    Except String Unit × ScannerState × List IOEffect :=
  let s₁ : ScannerState :=
    { s with loading := true, lookupError := none, barcodeCode := some barcode }
  match lookupResult with
  | FetchResult.ok l =>
      (Except.ok (),
        { s₁ with itemData := some l.item, productData := some l.product_data,
                  loading := false },
        [IOEffect.getItemLookup])
  | FetchResult.err m =>
      (Except.ok (), { s₁ with lookupError := some m, loading := false },
        [IOEffect.getItemLookup])

/-- Embedding of resetState: clears barcode, item and product data,
processing flag, lookup error, and zeroes the throttle timestamp.
The loading flag is not touched by the source. -/
def resetState (s : ScannerState) : ScannerState :=
  { s with barcodeCode := none, itemData := none, productData := none,
           processing := false, lookupError := none, lastProcessedTime := 0 }

/-! Camera Session Manager: useCamera -/

/-- The DetectionMethod union of useCamera: the null case is modeled by
Option DetectionMethod. -/
inductive DetectionMethod where
  | barcodedetector
  | html5qrcode
deriving Repr, DecidableEq

/-- State owned by useCamera. The canplayListener flag records that a
canplay handler is attached to the video element and will set
cameraActive once frames flow. -/
structure CameraState where
  cameraActive : Bool
  error : Option String
  detectionMethod : Option DetectionMethod
  canplayListener : Bool
deriving Repr, DecidableEq

/-- Camera hook state right after mount. -/
def initialCameraState : CameraState :=
  { cameraActive := false, error := none, detectionMethod := none,
    canplayListener := false }

/-- Environment of one initializeCamera call: whether getUserMedia
resolves with a stream, whether a BarcodeDetector global exists,
whether constructing one succeeds, and whether videoRef.current is a
mounted video element at the time of the call. -/
structure CameraEnv where
  mediaGranted : Bool
  barcodeDetectorInWindow : Bool
  detectorInstantiates : Bool
  videoRefAttached : Bool
deriving Repr, DecidableEq

/-- Observable side effects of initializeCamera on the stream and the
video element. -/
inductive CameraEffect where
  | stopStreamTracks
  | attachStreamToVideo
deriving Repr, DecidableEq

/-- The user-facing message set when getUserMedia rejects. -/
def cameraAccessErrorMsg : String :=
  "Failed to access camera. Please ensure you have granted camera permissions."

/-- Embedding of initializeCamera. Mirrors the source: on getUserMedia
rejection only the error is set; on grant, the BarcodeDetector probe
runs, and on success with an attached video ref the stream is attached,
a canplay listener is registered (cameraActive becomes true only when
it fires), and detectionMethod becomes barcodedetector. If the probe
instantiation throws, the tracks are stopped in the catch and again in
the fallback branch, which sets detectionMethod to html5qrcode. If the
probe succeeds but videoRef.current is null, the source sets neither
method and does not stop the stream. -/
def initializeCamera (env : CameraEnv) (s : CameraState) :
    CameraState × List CameraEffect :=
  if env.mediaGranted = false then
    ({ s with error := some cameraAccessErrorMsg }, [])
  else
    if env.barcodeDetectorInWindow && env.detectorInstantiates then
      if env.videoRefAttached then
        ({ s with canplayListener := true,
                  detectionMethod := some DetectionMethod.barcodedetector },
          [CameraEffect.attachStreamToVideo])
      else
        (s, [])
    else
      ({ s with detectionMethod := some DetectionMethod.html5qrcode },
        if env.barcodeDetectorInWindow then
          [CameraEffect.stopStreamTracks, CameraEffect.stopStreamTracks]
        else
          [CameraEffect.stopStreamTracks])

/-- The canplay event firing on the video element: the registered
handler sets cameraActive and removes itself. -/
def canplayEvent (s : CameraState) : CameraState :=
  if s.canplayListener then
    { s with cameraActive := true, canplayListener := false }
  else s

/-! Detection Feedback Controller: useDetectionFeedback.
Timers are modeled by an explicit pool of scheduled callbacks keyed by
id, with setTimeout allocating a fresh id and clearTimeout removing an
entry, so that cancellation and stale timers are faithfully visible. -/

/-- Pool of scheduled timeouts: each entry is (timer id, absolute fire
time in ms); nextId is the next fresh timer id. -/
structure TimerWorld where
  timers : List (Nat × Nat)
  nextId : Nat
deriving Repr, DecidableEq

/-- An empty timer pool. -/
def emptyTimerWorld : TimerWorld := { timers := [], nextId := 0 }

/-- clearTimeout: removes the entry with the given id, if scheduled. -/
def clearTimeoutW (id : Nat) (w : TimerWorld) : TimerWorld :=
  { w with timers := w.timers.filter (fun p => !(p.1 == id)) }

/-- setTimeout at an absolute fire time: allocates a fresh id. -/
def setTimeoutW (fireAt : Nat) (w : TimerWorld) : Nat × TimerWorld :=
  (w.nextId, { timers := (w.nextId, fireAt) :: w.timers, nextId := w.nextId + 1 })

/-- State owned by useDetectionFeedback: the barcodeDetected flag and
the detectionFlashRef holding the id of the pending reset timer. -/
structure FeedbackState where
  barcodeDetected : Bool
  detectionFlashRef : Option Nat
deriving Repr, DecidableEq

/-- Feedback hook state right after mount. -/
def initialFeedbackState : FeedbackState :=
  { barcodeDetected := false, detectionFlashRef := none }

/-- Embedding of showDetectionFeedback at clock time now: sets
barcodeDetected (and plays the detection sound, not modeled), clears
any existing reset timer, and schedules a new reset 500ms ahead,
storing its id in detectionFlashRef. -/
def showDetectionFeedback (now : Nat) (s : FeedbackState) (w : TimerWorld) :
    FeedbackState × TimerWorld :=
  let w₁ := match s.detectionFlashRef with
    | some id => clearTimeoutW id w
    | none => w
  let idw := setTimeoutW (now + 500) w₁
  ({ barcodeDetected := true, detectionFlashRef := some idw.1 }, idw.2)

/-- The event loop firing the reset timer with the given id: if the id
is still scheduled, its callback runs (setting barcodeDetected to
false) and the entry is consumed; a cancelled id does nothing. -/
def fireFlashTimer (id : Nat) (s : FeedbackState) (w : TimerWorld) :
    FeedbackState × TimerWorld :=
  if w.timers.any (fun p => p.1 == id) then
    ({ s with barcodeDetected := false }, clearTimeoutW id w)
  else
    (s, w)

/-- Embedding of the unmount cleanup of useDetectionFeedback: clears
the pending reset timer held in detectionFlashRef, if any. -/
def feedbackCleanup (s : FeedbackState) (w : TimerWorld) : TimerWorld :=
  match s.detectionFlashRef with
  | some id => clearTimeoutW id w
  | none => w

/-! Library Scanner Adapter: useHtml5Scanner (Html5Qrcode variant with
the initialization guard, the variant the page module type-checks
against; the repository postmortem records the switch to it). -/

/-- State owned by useHtml5Scanner: html5ScannerRef holds the live
Html5Qrcode instance (identified here by a numeric id), and
initializingRef flags a start in progress. -/
structure AdapterState where
  html5ScannerRef : Option Nat
  initializing : Bool
deriving Repr, DecidableEq

/-- Adapter hook state right after mount. -/
def initialAdapterState : AdapterState :=
  { html5ScannerRef := none, initializing := false }

/-- Environment of one initializeHtml5Scanner call: whether the DOM
container exists and whether scanner.start resolves. -/
structure AdapterEnv where
  containerPresent : Bool
  startResult : FetchResult Unit
deriving Repr, DecidableEq

/-- Observable effects of the adapter on the scanning library: creating
an instance, starting it, and the onScannerReady notification. -/
inductive AdapterEffect where
  | createInstance (id : Nat)
  | startScanner (id : Nat)
  | notifyReady
deriving Repr, DecidableEq

/-- Embedding of initializeHtml5Scanner. newId is the identity the
fresh Html5Qrcode instance would get. Mirrors the source: the guard
returns immediately when a start is in progress or an instance exists;
otherwise initializingRef is set, the container is checked (its absence
throws), an instance is created and started (the aspect-ratio probe
only shapes the start configuration and is not modeled), the ref is
stored and onScannerReady fires on success; the catch nulls the ref and
rethrows, and the finally block clears initializingRef. -/
def initializeHtml5Scanner (env : AdapterEnv) (newId : Nat) (st : AdapterState) :
    Except String Unit × AdapterState × List AdapterEffect :=
  if st.initializing || st.html5ScannerRef.isSome then
    (Except.ok (), st, [])
  else
    if env.containerPresent = false then
      (Except.error "Scanner container not found in DOM",
        { html5ScannerRef := none, initializing := false }, [])
    else
      match env.startResult with
      | FetchResult.err m =>
          (Except.error m, { html5ScannerRef := none, initializing := false },
            [AdapterEffect.createInstance newId, AdapterEffect.startScanner newId])
      | FetchResult.ok _ =>
          (Except.ok (), { html5ScannerRef := some newId, initializing := false },
            [AdapterEffect.createInstance newId, AdapterEffect.startScanner newId,
             AdapterEffect.notifyReady])

/-- Environment of one clearScanner call: the outcomes of the
underlying library stop and clear calls. -/
structure ClearEnv where
  stopResult : FetchResult Unit
  clearResult : FetchResult Unit
deriving Repr, DecidableEq

/-- Embedding of clearScanner. Returns the value the promise settles
with, the adapter state on exit, and the console error logs. Mirrors
the source: early return when no instance is held; the stop call in its
own try/catch whose catch only logs; the clear call in a try/catch
whose catch only logs and whose finally block nulls the ref. Neither
failure is rethrown, so the promise always resolves. -/
def clearScanner (env : ClearEnv) (st : AdapterState) :
    Except String Unit × AdapterState × List String :=
  match st.html5ScannerRef with
  | none => (Except.ok (), st, [])
  | some _ =>
      let stopLogs := match env.stopResult with
        | FetchResult.ok _ => []
        | FetchResult.err m => ["Could not stop scanner: " ++ m]
      let clearLogs := match env.clearResult with
        | FetchResult.ok _ => []
        | FetchResult.err m => ["Could not clear scanner: " ++ m]
      (Except.ok (), { st with html5ScannerRef := none }, stopLogs ++ clearLogs)

/-- Embedding of the decode-success callback installed by
initializeHtml5Scanner: it invokes onDetection with the decoded text,
then pauses the scanner inside a try/catch whose catch only logs.
Returns the detection delivered to the page, the error logs, and the
user-visible error the callback itself produces, which is none in both
branches of the source. -/
def scannerDecodeCallback (pauseResult : FetchResult Unit) (decodedText : String) :
    String × List String × Option String :=
  match pauseResult with
  | FetchResult.ok _ => (decodedText, [], none)
  | FetchResult.err m => (decodedText, ["Error pausing scanner: " ++ m], none)

/-! Manual Capture Coordinator: useManualBarcodeCapture.captureBarcode -/

/-- Environment of one captureBarcode call: the processing environment
of the delegated processDetectedBarcodeAsync call, presence of the
video and canvas elements, the pauseHtml5Scanner option, whether
html5ScannerRef.current is non-null, and the outcome of the pause call
were it issued. -/
structure CaptureEnv where
  penv : ProcessEnv
  videoPresent : Bool
  canvasPresent : Bool
  pauseHtml5Scanner : Bool
  scannerRefPresent : Bool
  pauseResult : FetchResult Unit
deriving Repr, DecidableEq

/-- State visible to captureBarcode: the scanner hook state and the
user-visible error cell (camera.setError is the onSetError callback). -/
structure CaptureState where
  scanner : ScannerState
  uiError : Option String
deriving Repr, DecidableEq

/-- Effects of one captureBarcode call: the I/O of the delegated
processing call, the feedback pulse, stopping the camera, and the
scanner pause attempt. -/
inductive CaptureEffect where
  | io (e : IOEffect)
  | showFeedback
  | stopCamera
  | pauseScanner
deriving Repr, DecidableEq

/-- The soft retry message shown when no barcode was read. -/
def couldNotReadMsg : String := "Could not read the barcode. Please try again."

/-- Embedding of captureBarcode. Mirrors the source: processing flag
set and error cleared on entry; missing video or canvas element throws
into the catch; the delegated processing call either rejects (caught,
error message surfaced with the capture-failure prefix), resolves false
(soft retry message), or resolves true (feedback pulse, camera stop,
then, when the pauseHtml5Scanner option is set and a scanner ref is
present, an awaited pause whose rejection is NOT caught locally and
therefore reaches the outer catch, which sets the user-visible
capture-failure error); the finally block always clears the processing
flag. -/
def captureBarcode (env : CaptureEnv) (st : CaptureState) :
    CaptureState × List CaptureEffect :=
  let s₀ : ScannerState := { st.scanner with processing := true }
  if env.videoPresent = false then
    ({ scanner := { s₀ with processing := false },
       uiError := some "Failed to capture barcode: Video element not found" }, [])
  else if env.canvasPresent = false then
    ({ scanner := { s₀ with processing := false },
       uiError := some "Failed to capture barcode: Canvas not found" }, [])
  else
    match processDetectedBarcodeAsync env.penv s₀ with
    | (Except.error m, s₁, effs) =>
        ({ scanner := { s₁ with processing := false },
           uiError := some ("Failed to capture barcode: " ++ m) },
          effs.map CaptureEffect.io)
    | (Except.ok false, s₁, effs) =>
        ({ scanner := { s₁ with processing := false },
           uiError := some couldNotReadMsg },
          effs.map CaptureEffect.io)
    | (Except.ok true, s₁, effs) =>
        if env.pauseHtml5Scanner && env.scannerRefPresent then
          match env.pauseResult with
          | FetchResult.ok _ =>
              ({ scanner := { s₁ with processing := false }, uiError := none },
                effs.map CaptureEffect.io ++
                  [CaptureEffect.showFeedback, CaptureEffect.stopCamera,
                   CaptureEffect.pauseScanner])
          | FetchResult.err m =>
              ({ scanner := { s₁ with processing := false },
                 uiError := some ("Failed to capture barcode: " ++ m) },
                effs.map CaptureEffect.io ++
                  [CaptureEffect.showFeedback, CaptureEffect.stopCamera,
                   CaptureEffect.pauseScanner])
        else
          ({ scanner := { s₁ with processing := false }, uiError := none },
            effs.map CaptureEffect.io ++
              [CaptureEffect.showFeedback, CaptureEffect.stopCamera])

/-! Concrete sample values used by counterexamples and witnesses. -/

/-- A sample item record. -/
def sampleItem : ItemData :=
  { id := 1, barcode := "036000291452", title := "Sample", description := "",
    aliasName := "", brand := none }

/-- A sample item lookup response. -/
def sampleLookup : ItemLookup :=
  { created := true, item := sampleItem, product_data := [] }

/-- A processing environment in which everything succeeds. -/
def happyProcessEnv : ProcessEnv :=
  { now := 5000, canvasCtx := true,
    processResult := FetchResult.ok { detected := true, barcode_code := some "036000291452" },
    lookupResult := FetchResult.ok sampleLookup }

/-! Theorems -/

/-- Helper: a call made fewer than 2000ms after the stored throttle
timestamp returns false with no state change and no I/O. -/
theorem processDetected_throttled (env : ProcessEnv) (s : ScannerState)
    (h : env.now - s.lastProcessedTime < 2000) :
    processDetectedBarcodeAsync env s = (Except.ok false, s, []) := by
  unfold processDetectedBarcodeAsync
  simp [h]

/-- Helper: an accepted call (at least 2000ms past the stored
timestamp) stores the call clock as the new throttle timestamp, on
every exit path. -/
theorem processDetected_accepted_timestamp (env : ProcessEnv) (s : ScannerState)
    (h : 2000 ≤ env.now - s.lastProcessedTime) :
    (processDetectedBarcodeAsync env s).2.1.lastProcessedTime = env.now := by
  unfold processDetectedBarcodeAsync
  rw [if_neg (Nat.not_lt.mpr h)]
  by_cases hc : env.canvasCtx = false
  · simp [hc]
  · simp only [hc, if_false]
    cases env.processResult with
    | err m => simp
    | ok r =>
        by_cases hd : (r.detected && truthyCode r.barcode_code) = true
        · simp only [hd, if_true]
          cases env.lookupResult <;> simp
        · simp [hd]

/-- Claim C1: for a pair of calls to processDetectedBarcodeAsync on one
hook instance where the first call is accepted by the throttle and the
second call runs fewer than 2000ms later, the second call returns
false, leaves the state unchanged, and performs no I/O at all (no
frame capture, no backend request: empty effect trace). -/
theorem processDetected_second_call_throttled_no_io
    (env₁ env₂ : ProcessEnv) (s : ScannerState)
    (h₁ : 2000 ≤ env₁.now - s.lastProcessedTime)
    (h₂ : env₂.now - env₁.now < 2000) :
    processDetectedBarcodeAsync env₂ (processDetectedBarcodeAsync env₁ s).2.1 =
      (Except.ok false, (processDetectedBarcodeAsync env₁ s).2.1, []) := by
  apply processDetected_throttled
  rw [processDetected_accepted_timestamp env₁ s h₁]
  exact h₂

/-- Witness for C1: a concrete accepted first call followed 1000ms
later by a second call that is rejected with no I/O. -/
theorem processDetected_second_call_throttled_no_io_witness :
    (2000 ≤ happyProcessEnv.now - initialScannerState.lastProcessedTime) ∧
    ({ happyProcessEnv with now := 6000 }.now - happyProcessEnv.now < 2000) ∧
    processDetectedBarcodeAsync { happyProcessEnv with now := 6000 }
        (processDetectedBarcodeAsync happyProcessEnv initialScannerState).2.1 =
      (Except.ok false,
        (processDetectedBarcodeAsync happyProcessEnv initialScannerState).2.1, []) :=
  ⟨by decide, by decide,
    processDetected_second_call_throttled_no_io happyProcessEnv
      { happyProcessEnv with now := 6000 } initialScannerState (by decide) (by decide)⟩

/-- Claim C10: when the backend reports a detection with a truthy
barcode value but the item lookup rejects, processDetectedBarcodeAsync
still resolves true, stores the backend barcode value, and records the
failure in lookupError instead of propagating it; likewise
lookupItemByBarcodeAsync resolves normally, keeps the barcode, and
records the failure in lookupError. -/
theorem lookup_failure_absorbed (env : ProcessEnv) (s s' : ScannerState)
    (r : ProcessBarcodeResult) (m b : String)
    (h₁ : 2000 ≤ env.now - s.lastProcessedTime)
    (h₂ : env.canvasCtx = true)
    (h₃ : env.processResult = FetchResult.ok r)
    (h₄ : (r.detected && truthyCode r.barcode_code) = true)
    (h₅ : env.lookupResult = FetchResult.err m) :
    (processDetectedBarcodeAsync env s).1 = Except.ok true ∧
    (processDetectedBarcodeAsync env s).2.1.barcodeCode = r.barcode_code ∧
    (processDetectedBarcodeAsync env s).2.1.lookupError = some m ∧
    (lookupItemByBarcodeAsync (FetchResult.err m) b s').1 = Except.ok () ∧
    (lookupItemByBarcodeAsync (FetchResult.err m) b s').2.1.barcodeCode = some b ∧
    (lookupItemByBarcodeAsync (FetchResult.err m) b s').2.1.lookupError = some m := by
  unfold processDetectedBarcodeAsync lookupItemByBarcodeAsync
  simp [Nat.not_lt.mpr h₁, h₂, h₃, h₄, h₅]

/-- Witness for C10: concrete detection with a rejected item lookup. -/
theorem lookup_failure_absorbed_witness :
    (2000 ≤ ({ happyProcessEnv with
        lookupResult := FetchResult.err "Network error" } : ProcessEnv).now -
      initialScannerState.lastProcessedTime) ∧
    (processDetectedBarcodeAsync
        { happyProcessEnv with lookupResult := FetchResult.err "Network error" }
        initialScannerState).1 = Except.ok true ∧
    (processDetectedBarcodeAsync
        { happyProcessEnv with lookupResult := FetchResult.err "Network error" }
        initialScannerState).2.1.barcodeCode = some "036000291452" ∧
    (processDetectedBarcodeAsync
        { happyProcessEnv with lookupResult := FetchResult.err "Network error" }
        initialScannerState).2.1.lookupError = some "Network error" :=
  ⟨by decide,
    (lookup_failure_absorbed
      { happyProcessEnv with lookupResult := FetchResult.err "Network error" }
      initialScannerState initialScannerState
      { detected := true, barcode_code := some "036000291452" }
      "Network error" "x" (by decide) (by decide) (by decide) (by decide)
      (by decide)).1,
    (lookup_failure_absorbed
      { happyProcessEnv with lookupResult := FetchResult.err "Network error" }
      initialScannerState initialScannerState
      { detected := true, barcode_code := some "036000291452" }
      "Network error" "x" (by decide) (by decide) (by decide) (by decide)
      (by decide)).2.1,
    (lookup_failure_absorbed
      { happyProcessEnv with lookupResult := FetchResult.err "Network error" }
      initialScannerState initialScannerState
      { detected := true, barcode_code := some "036000291452" }
      "Network error" "x" (by decide) (by decide) (by decide) (by decide)
      (by decide)).2.2.1⟩

/-- Claim C9: resetState leaves no residual throttle timestamp, barcode
value, item or product data, or lookup error, and an accepted fresh
successful capture from the reset state ends in exactly the state a
first-time successful capture ends in (same returned value, same hook
state, same I/O trace). -/
theorem resetState_roundtrip (env : ProcessEnv) (s : ScannerState)
    (r : ProcessBarcodeResult)
    (h₁ : 2000 ≤ env.now)
    (h₂ : env.canvasCtx = true)
    (h₃ : env.processResult = FetchResult.ok r)
    (h₄ : (r.detected && truthyCode r.barcode_code) = true) :
    (resetState s).lastProcessedTime = 0 ∧
    (resetState s).barcodeCode = none ∧
    (resetState s).itemData = none ∧
    (resetState s).productData = none ∧
    (resetState s).lookupError = none ∧
    processDetectedBarcodeAsync env (resetState s) =
      processDetectedBarcodeAsync env initialScannerState := by
  refine ⟨rfl, rfl, rfl, rfl, rfl, ?_⟩
  unfold processDetectedBarcodeAsync resetState initialScannerState
  have hnl : ¬ (env.now < 2000) := Nat.not_lt.mpr h₁
  simp [hnl, h₂, h₃, h₄]

/-- Witness for C9: a fresh successful capture from a reset dirty state
coincides with one from the initial state. -/
theorem resetState_roundtrip_witness :
    (2000 ≤ happyProcessEnv.now) ∧
    processDetectedBarcodeAsync happyProcessEnv
        (resetState { barcodeCode := some "old", itemData := some sampleItem,
                      productData := some [], loading := false, processing := true,
                      lookupError := some "stale", lastProcessedTime := 4999 }) =
      processDetectedBarcodeAsync happyProcessEnv initialScannerState :=
  ⟨by decide,
    (resetState_roundtrip happyProcessEnv
      { barcodeCode := some "old", itemData := some sampleItem,
        productData := some [], loading := false, processing := true,
        lookupError := some "stale", lastProcessedTime := 4999 }
      { detected := true, barcode_code := some "036000291452" }
      (by decide) (by decide) (by decide) (by decide)).2.2.2.2.2⟩

/-- Helper: captureBarcode clears the processing flag on every exit
path (the finally block). -/
theorem captureBarcode_processing_cleared (env : CaptureEnv) (st : CaptureState) :
    (captureBarcode env st).1.scanner.processing = false := by
  unfold captureBarcode
  by_cases hv : env.videoPresent = false
  · simp [hv]
  · by_cases hc : env.canvasPresent = false
    · simp [hv, hc]
    · simp only [hv, hc, if_false]
      rcases hp : processDetectedBarcodeAsync env.penv
          { st.scanner with processing := true } with ⟨res, s₁, effs⟩
      cases res with
      | error m => simp
      | ok b =>
          cases b
          · simp
          · by_cases hps : (env.pauseHtml5Scanner && env.scannerRefPresent) = true
            · simp only [hps, if_true]
              cases env.pauseResult <;> simp
            · simp [hps]

/-- Claim C6: an accepted manual capture whose backend response has
detected = false surfaces the soft retry message, fires no feedback
pulse, does not stop the camera, and the processing flag is false on
return; moreover the processing flag is cleared unconditionally on
every captureBarcode call. -/
theorem captureBarcode_not_detected_soft_error (env : CaptureEnv) (st : CaptureState)
    (r : ProcessBarcodeResult)
    (hv : env.videoPresent = true)
    (hc : env.canvasPresent = true)
    (h₁ : 2000 ≤ env.penv.now - st.scanner.lastProcessedTime)
    (h₂ : env.penv.canvasCtx = true)
    (h₃ : env.penv.processResult = FetchResult.ok r)
    (h₄ : r.detected = false) :
    (captureBarcode env st).1.uiError = some couldNotReadMsg ∧
    CaptureEffect.showFeedback ∉ (captureBarcode env st).2 ∧
    CaptureEffect.stopCamera ∉ (captureBarcode env st).2 ∧
    (captureBarcode env st).1.scanner.processing = false ∧
    (∀ (env' : CaptureEnv) (st' : CaptureState),
      (captureBarcode env' st').1.scanner.processing = false) := by
  refine ⟨?_, ?_, ?_, captureBarcode_processing_cleared env st,
    fun env' st' => captureBarcode_processing_cleared env' st'⟩ <;>
  · unfold captureBarcode processDetectedBarcodeAsync
    simp [hv, hc, h₂, h₃, h₄, Nat.not_lt.mpr h₁]

/-- An environment for a manual capture whose frame contains no
readable barcode: the backend resolves with detected = false. -/
def notDetectedEnv : CaptureEnv :=
  { penv := { happyProcessEnv with
      processResult := FetchResult.ok { detected := false, barcode_code := none } },
    videoPresent := true, canvasPresent := true,
    pauseHtml5Scanner := false, scannerRefPresent := false,
    pauseResult := FetchResult.ok () }

/-- Witness for C6: the concrete no-barcode manual capture. -/
theorem captureBarcode_not_detected_soft_error_witness :
    (2000 ≤ notDetectedEnv.penv.now -
      ({ scanner := initialScannerState, uiError := none } : CaptureState).scanner.lastProcessedTime) ∧
    (captureBarcode notDetectedEnv
        { scanner := initialScannerState, uiError := none }).1.uiError =
      some couldNotReadMsg ∧
    CaptureEffect.stopCamera ∉
      (captureBarcode notDetectedEnv { scanner := initialScannerState, uiError := none }).2 :=
  ⟨by decide,
    (captureBarcode_not_detected_soft_error notDetectedEnv
      { scanner := initialScannerState, uiError := none }
      { detected := false, barcode_code := none }
      (by decide) (by decide) (by decide) (by decide) (by decide) (by decide)).1,
    (captureBarcode_not_detected_soft_error notDetectedEnv
      { scanner := initialScannerState, uiError := none }
      { detected := false, barcode_code := none }
      (by decide) (by decide) (by decide) (by decide) (by decide) (by decide)).2.2.1⟩

/-- An environment for a successful manual capture in html5qrcode mode
in which the subsequent scanner pause call rejects (the library throws
when pausing a scanner that is not running). -/
def pauseThrowsEnv : CaptureEnv :=
  { penv := happyProcessEnv,
    videoPresent := true, canvasPresent := true,
    pauseHtml5Scanner := true, scannerRefPresent := true,
    pauseResult := FetchResult.err "Cannot pause, scanner is not running or paused." }

/-- Counterexample to claim C5 as stated: on a successful manual
capture (the barcode is stored and the feedback pulse fires), a
throwing pause on the scanner instance reaches the outer catch of
captureBarcode and IS surfaced as user-visible error text, rather than
only being logged. -/
theorem captureBarcode_pause_error_surfaces :
    (captureBarcode pauseThrowsEnv
        { scanner := initialScannerState, uiError := none }).1.scanner.barcodeCode =
      some "036000291452" ∧
    CaptureEffect.showFeedback ∈
      (captureBarcode pauseThrowsEnv { scanner := initialScannerState, uiError := none }).2 ∧
    CaptureEffect.pauseScanner ∈
      (captureBarcode pauseThrowsEnv { scanner := initialScannerState, uiError := none }).2 ∧
    (captureBarcode pauseThrowsEnv
        { scanner := initialScannerState, uiError := none }).1.uiError =
      some "Failed to capture barcode: Cannot pause, scanner is not running or paused." := by
  decide

/-- Claim C5 as amended: lifecycle errors inside the Library Scanner
Adapter are absorbed and only logged — clearScanner always resolves
with the instance reference nulled whatever the underlying stop and
clear calls do, and a throwing pause in the decode-success callback
produces no user-visible error while the detection is still delivered —
but in the Manual Capture Coordinator a pause that throws after a
successful capture reaches the outer catch and sets the user-visible
capture-failure error text. -/
theorem lifecycle_error_policy (env : CaptureEnv) (st : CaptureState) (m : String)
    (hv : env.videoPresent = true)
    (hc : env.canvasPresent = true)
    (h₁ : 2000 ≤ env.penv.now - st.scanner.lastProcessedTime)
    (h₂ : env.penv.canvasCtx = true)
    (h₃ : ∃ r, env.penv.processResult = FetchResult.ok r ∧
      (r.detected && truthyCode r.barcode_code) = true)
    (hp : env.pauseHtml5Scanner = true)
    (hr : env.scannerRefPresent = true)
    (hm : env.pauseResult = FetchResult.err m) :
    (∀ (cenv : ClearEnv) (ast : AdapterState),
      (clearScanner cenv ast).1 = Except.ok () ∧
      (clearScanner cenv ast).2.1.html5ScannerRef = none) ∧
    (∀ (pr : FetchResult Unit) (t : String),
      (scannerDecodeCallback pr t).1 = t ∧
      (scannerDecodeCallback pr t).2.2 = none) ∧
    (captureBarcode env st).1.uiError = some ("Failed to capture barcode: " ++ m) := by
  refine ⟨?_, ?_, ?_⟩
  · intro cenv ast
    obtain ⟨ref, ini⟩ := ast
    cases ref <;> simp [clearScanner]
  · intro pr t
    cases pr <;> simp [scannerDecodeCallback]
  · obtain ⟨r, h₃, h₄⟩ := h₃
    unfold captureBarcode processDetectedBarcodeAsync
    cases henv : env.penv.lookupResult <;>
      simp [hv, hc, h₂, h₃, h₄, hp, hr, hm, henv, Nat.not_lt.mpr h₁]

/-- Witness for the amended C5 at the concrete pause-throw input. -/
theorem lifecycle_error_policy_witness :
    (2000 ≤ pauseThrowsEnv.penv.now -
      ({ scanner := initialScannerState, uiError := none } : CaptureState).scanner.lastProcessedTime) ∧
    (∀ (cenv : ClearEnv) (ast : AdapterState),
      (clearScanner cenv ast).1 = Except.ok () ∧
      (clearScanner cenv ast).2.1.html5ScannerRef = none) ∧
    (∀ (pr : FetchResult Unit) (t : String),
      (scannerDecodeCallback pr t).1 = t ∧
      (scannerDecodeCallback pr t).2.2 = none) ∧
    (captureBarcode pauseThrowsEnv
        { scanner := initialScannerState, uiError := none }).1.uiError =
      some ("Failed to capture barcode: " ++
        "Cannot pause, scanner is not running or paused.") :=
  ⟨by decide,
    (lifecycle_error_policy pauseThrowsEnv
      { scanner := initialScannerState, uiError := none }
      "Cannot pause, scanner is not running or paused."
      (by decide) (by decide) (by decide) (by decide)
      ⟨{ detected := true, barcode_code := some "036000291452" }, by decide, by decide⟩
      (by decide) (by decide) (by decide)).1,
    (lifecycle_error_policy pauseThrowsEnv
      { scanner := initialScannerState, uiError := none }
      "Cannot pause, scanner is not running or paused."
      (by decide) (by decide) (by decide) (by decide)
      ⟨{ detected := true, barcode_code := some "036000291452" }, by decide, by decide⟩
      (by decide) (by decide) (by decide)).2.1,
    (lifecycle_error_policy pauseThrowsEnv
      { scanner := initialScannerState, uiError := none }
      "Cannot pause, scanner is not running or paused."
      (by decide) (by decide) (by decide) (by decide)
      ⟨{ detected := true, barcode_code := some "036000291452" }, by decide, by decide⟩
      (by decide) (by decide) (by decide)).2.2⟩

/-- An environment in which the camera is granted, a BarcodeDetector
global exists and instantiates, but videoRef.current is null at the
time of the call. -/
def detachedVideoRefEnv : CameraEnv :=
  { mediaGranted := true, barcodeDetectorInWindow := true,
    detectorInstantiates := true, videoRefAttached := false }

/-- Counterexample to claim C2 as stated: a call to initializeCamera
with camera access granted and no error recorded can return with
detectionMethod still null — when the native detector instantiates but
the video element ref is not attached, the source sets neither
detection method (and also leaves the granted stream running). -/
theorem initializeCamera_detached_ref_leaves_method_null :
    detachedVideoRefEnv.mediaGranted = true ∧
    (initializeCamera detachedVideoRefEnv initialCameraState).1.error = none ∧
    (initializeCamera detachedVideoRefEnv initialCameraState).1.detectionMethod = none ∧
    (initializeCamera detachedVideoRefEnv initialCameraState).2 = [] := by
  decide

/-- Claim C2 as amended: for every initializeCamera call with camera
access granted and the video element ref attached, exactly one
detection method is set on return — barcodedetector when the native
capability instantiates, html5qrcode otherwise — and no error is
recorded; without the attached ref the method can remain null. -/
theorem initializeCamera_sets_exactly_one_method (env : CameraEnv) (s : CameraState)
    (hg : env.mediaGranted = true)
    (hv : env.videoRefAttached = true) :
    (initializeCamera env s).1.detectionMethod =
      some (if env.barcodeDetectorInWindow && env.detectorInstantiates then
        DetectionMethod.barcodedetector
      else
        DetectionMethod.html5qrcode) ∧
    (initializeCamera env s).1.error = s.error := by
  unfold initializeCamera
  by_cases hb : (env.barcodeDetectorInWindow && env.detectorInstantiates) = true <;>
    simp [hg, hv, hb]

/-- Witness for the amended C2 at a concrete native-capable input. -/
theorem initializeCamera_sets_exactly_one_method_witness :
    ({ detachedVideoRefEnv with videoRefAttached := true } : CameraEnv).mediaGranted = true ∧
    (initializeCamera { detachedVideoRefEnv with videoRefAttached := true }
        initialCameraState).1.detectionMethod =
      some (if ({ detachedVideoRefEnv with videoRefAttached := true } : CameraEnv).barcodeDetectorInWindow &&
          ({ detachedVideoRefEnv with videoRefAttached := true } : CameraEnv).detectorInstantiates then
        DetectionMethod.barcodedetector
      else
        DetectionMethod.html5qrcode) :=
  ⟨by decide,
    (initializeCamera_sets_exactly_one_method
      { detachedVideoRefEnv with videoRefAttached := true } initialCameraState
      (by decide) (by decide)).1⟩

/-- Claim C7: camera granted but the native detector probe throws on
instantiation — the granted stream tracks are stopped and the detection
method becomes html5qrcode. -/
theorem initializeCamera_probe_throw_fallback (env : CameraEnv) (s : CameraState)
    (hg : env.mediaGranted = true)
    (hw : env.barcodeDetectorInWindow = true)
    (hi : env.detectorInstantiates = false) :
    (initializeCamera env s).1.detectionMethod = some DetectionMethod.html5qrcode ∧
    CameraEffect.stopStreamTracks ∈ (initializeCamera env s).2 := by
  unfold initializeCamera
  simp [hg, hw, hi]

/-- Witness for C7 at a concrete probe-throw input. -/
theorem initializeCamera_probe_throw_fallback_witness :
    ({ detachedVideoRefEnv with detectorInstantiates := false } : CameraEnv).mediaGranted = true ∧
    (initializeCamera { detachedVideoRefEnv with detectorInstantiates := false }
        initialCameraState).1.detectionMethod = some DetectionMethod.html5qrcode ∧
    CameraEffect.stopStreamTracks ∈
      (initializeCamera { detachedVideoRefEnv with detectorInstantiates := false }
        initialCameraState).2 :=
  ⟨by decide,
    (initializeCamera_probe_throw_fallback
      { detachedVideoRefEnv with detectorInstantiates := false } initialCameraState
      (by decide) (by decide) (by decide)).1,
    (initializeCamera_probe_throw_fallback
      { detachedVideoRefEnv with detectorInstantiates := false } initialCameraState
      (by decide) (by decide) (by decide)).2⟩

/-- Claim C3: when a start is already in progress or an instance
already exists, initializeHtml5Scanner returns immediately resolved,
leaves the state unchanged, and performs no library effects at all (in
particular it creates no second instance). -/
theorem initializeHtml5Scanner_idempotent (env : AdapterEnv) (newId : Nat)
    (st : AdapterState)
    (h : st.initializing = true ∨ st.html5ScannerRef.isSome = true) :
    initializeHtml5Scanner env newId st = (Except.ok (), st, []) := by
  unfold initializeHtml5Scanner
  rcases h with h | h <;> simp [h]

/-- Witness for C3: a second start on a state already holding a live
instance is a no-op. -/
theorem initializeHtml5Scanner_idempotent_witness :
    (({ html5ScannerRef := some 7, initializing := false } : AdapterState).initializing = true ∨
      ({ html5ScannerRef := some 7, initializing := false } : AdapterState).html5ScannerRef.isSome = true) ∧
    initializeHtml5Scanner { containerPresent := true, startResult := FetchResult.ok () } 8
        { html5ScannerRef := some 7, initializing := false } =
      (Except.ok (), { html5ScannerRef := some 7, initializing := false }, []) :=
  ⟨Or.inr (by decide),
    initializeHtml5Scanner_idempotent
      { containerPresent := true, startResult := FetchResult.ok () } 8
      { html5ScannerRef := some 7, initializing := false } (Or.inr (by decide))⟩

/-- Claim C4: after any clearScanner call, whatever the underlying stop
and clear calls did, the stored instance reference is null on return,
and a subsequent start on the returned state (with the container
present and a resolving library start) is not blocked by the guard and
installs a fresh instance. -/
theorem clearScanner_clears_ref (env : ClearEnv) (st : AdapterState) :
    (clearScanner env st).2.1.html5ScannerRef = none ∧
    (∀ (aenv : AdapterEnv) (newId : Nat),
      st.initializing = false →
      aenv.containerPresent = true →
      aenv.startResult = FetchResult.ok () →
      (initializeHtml5Scanner aenv newId (clearScanner env st).2.1).2.1.html5ScannerRef =
        some newId) := by
  obtain ⟨ref, ini⟩ := st
  constructor
  · cases ref <;> simp [clearScanner]
  · intro aenv newId hini hcont hstart
    subst hini
    cases ref <;> simp [clearScanner, initializeHtml5Scanner, hcont, hstart]

/-- Witness for C4: clearing a held instance whose underlying stop and
clear calls both throw still nulls the reference, after which a start
succeeds. -/
theorem clearScanner_clears_ref_witness :
    (clearScanner
        { stopResult := FetchResult.err "scanner is not running or paused.",
          clearResult := FetchResult.err "Cannot clear while scan is ongoing" }
        { html5ScannerRef := some 7, initializing := false }).2.1.html5ScannerRef = none ∧
    ({ html5ScannerRef := some 7, initializing := false } : AdapterState).initializing = false ∧
    (initializeHtml5Scanner { containerPresent := true, startResult := FetchResult.ok () } 8
        (clearScanner
          { stopResult := FetchResult.err "scanner is not running or paused.",
            clearResult := FetchResult.err "Cannot clear while scan is ongoing" }
          { html5ScannerRef := some 7, initializing := false }).2.1).2.1.html5ScannerRef =
      some 8 :=
  ⟨(clearScanner_clears_ref
      { stopResult := FetchResult.err "scanner is not running or paused.",
        clearResult := FetchResult.err "Cannot clear while scan is ongoing" }
      { html5ScannerRef := some 7, initializing := false }).1,
    by decide,
    (clearScanner_clears_ref
      { stopResult := FetchResult.err "scanner is not running or paused.",
        clearResult := FetchResult.err "Cannot clear while scan is ongoing" }
      { html5ScannerRef := some 7, initializing := false }).2
      { containerPresent := true, startResult := FetchResult.ok () } 8
      (by decide) (by decide) (by decide)⟩

/-- Helper: no timer in a pool whose ids are all below n carries id n. -/
theorem timers_any_lt (l : List (Nat × Nat)) (n : Nat) (h : ∀ p ∈ l, p.1 < n) :
    (l.any fun p => p.1 == n) = false := by
  rw [List.any_eq_false]
  intro p hp
  simp [Nat.ne_of_lt (h p hp)]

/-- Helper: members of a filtered timer pool are members of the pool. -/
theorem clearTimeoutW_bound (id n : Nat) (w : TimerWorld)
    (h : ∀ p ∈ w.timers, p.1 < n) :
    ∀ p ∈ (clearTimeoutW id w).timers, p.1 < n := by
  intro p hp
  exact h p (List.mem_of_mem_filter hp)

/-- Helper: the cleanup keeps the id supply and only removes timers. -/
theorem feedbackCleanup_bound (s : FeedbackState) (w : TimerWorld) (n : Nat)
    (h : ∀ p ∈ w.timers, p.1 < n) :
    ∀ p ∈ (feedbackCleanup s w).timers, p.1 < n := by
  rcases hr : s.detectionFlashRef with _ | id
  · simpa [feedbackCleanup, hr] using h
  · simpa [feedbackCleanup, hr] using clearTimeoutW_bound id n w h

/-- Helper: closed form of one pulse — the flag is set, the previously
referenced timer (if any) is cleared, and a fresh timer with the next
id is scheduled exactly 500ms ahead and stored in the ref. -/
theorem showDetectionFeedback_eq (now : Nat) (s : FeedbackState) (w : TimerWorld) :
    showDetectionFeedback now s w =
      ({ barcodeDetected := true, detectionFlashRef := some w.nextId },
       { timers := (w.nextId, now + 500) :: (feedbackCleanup s w).timers,
         nextId := w.nextId + 1 }) := by
  rcases hr : s.detectionFlashRef with _ | id <;>
    simp [showDetectionFeedback, feedbackCleanup, setTimeoutW, clearTimeoutW, hr]

/-- Claim C8: after a pulse the detected flag is true at once and the
reset timer is due exactly 500ms later; firing it resets the flag. If a
second pulse arrives 100ms after the first, the first timer is
cancelled (firing its id is a no-op), the second pulse's timer is due
exactly 500ms after the second pulse and governs the reset, and after
teardown the pending timer is cancelled too, so no stale timer fires. -/
theorem showDetectionFeedback_pulse_timing (s : FeedbackState) (w : TimerWorld) (t : Nat)
    (hwf : ∀ p ∈ w.timers, p.1 < w.nextId) :
    let p₁ := showDetectionFeedback t s w
    let p₂ := showDetectionFeedback (t + 100) p₁.1 p₁.2
    p₁.1.barcodeDetected = true ∧
    (w.nextId, t + 500) ∈ p₁.2.timers ∧
    (fireFlashTimer w.nextId p₁.1 p₁.2).1.barcodeDetected = false ∧
    p₂.1.barcodeDetected = true ∧
    fireFlashTimer w.nextId p₂.1 p₂.2 = (p₂.1, p₂.2) ∧
    (w.nextId + 1, (t + 100) + 500) ∈ p₂.2.timers ∧
    (fireFlashTimer (w.nextId + 1) p₂.1 p₂.2).1.barcodeDetected = false ∧
    fireFlashTimer (w.nextId + 1) p₂.1 (feedbackCleanup p₂.1 p₂.2) =
      (p₂.1, feedbackCleanup p₂.1 p₂.2) := by
  intro p₁ p₂
  have hC : ∀ p ∈ (feedbackCleanup s w).timers, p.1 < w.nextId :=
    feedbackCleanup_bound s w w.nextId hwf
  have hp₁ : p₁ =
      ({ barcodeDetected := true, detectionFlashRef := some w.nextId },
       { timers := (w.nextId, t + 500) :: (feedbackCleanup s w).timers,
         nextId := w.nextId + 1 }) :=
    showDetectionFeedback_eq t s w
  have hcl : feedbackCleanup p₁.1 p₁.2 =
      ({ timers := ((feedbackCleanup s w).timers.filter fun p => !(p.1 == w.nextId)),
         nextId := w.nextId + 1 } : TimerWorld) := by
    rw [hp₁]
    simp [feedbackCleanup, clearTimeoutW]
  have hp₂ : p₂ =
      ({ barcodeDetected := true, detectionFlashRef := some (w.nextId + 1) },
       { timers := (w.nextId + 1, (t + 100) + 500) ::
            ((feedbackCleanup s w).timers.filter fun p => !(p.1 == w.nextId)),
         nextId := w.nextId + 2 }) := by
    show showDetectionFeedback (t + 100) p₁.1 p₁.2 = _
    rw [showDetectionFeedback_eq, hcl]
    rw [hp₁]
  have hC₂ : ∀ p ∈ ((feedbackCleanup s w).timers.filter fun p => !(p.1 == w.nextId)),
      p.1 < w.nextId := fun p hp => hC p (List.mem_of_mem_filter hp)
  refine ⟨by rw [hp₁], by rw [hp₁]; exact List.mem_cons_self _ _, ?_, by rw [hp₂],
    ?_, by rw [hp₂]; exact List.mem_cons_self _ _, ?_, ?_⟩
  · rw [hp₁]
    simp [fireFlashTimer]
  · rw [hp₂]
    have htail : (((feedbackCleanup s w).timers.filter fun p => !(p.1 == w.nextId)).any
        fun p => p.1 == w.nextId) = false := timers_any_lt _ _ hC₂
    unfold fireFlashTimer
    simp [htail, Nat.succ_ne_self]
  · rw [hp₂]
    simp [fireFlashTimer]
  · have hclean : feedbackCleanup p₂.1 p₂.2 =
        ({ timers := ((feedbackCleanup s w).timers.filter fun p => !(p.1 == w.nextId)).filter
            (fun p => !(p.1 == w.nextId + 1)),
           nextId := w.nextId + 2 } : TimerWorld) := by
      rw [hp₂]
      simp [feedbackCleanup, clearTimeoutW]
    rw [hclean]
    have hno : ((((feedbackCleanup s w).timers.filter fun p => !(p.1 == w.nextId)).filter
        (fun p => !(p.1 == w.nextId + 1))).any fun p => p.1 == w.nextId + 1) = false :=
      timers_any_lt _ _ (fun p hp =>
        Nat.lt_trans (hC₂ p (List.mem_of_mem_filter hp)) (Nat.lt_succ_self _))
    unfold fireFlashTimer
    simp [hno]

/-- Witness for C8: the double pulse at 1000ms and 1100ms from a fresh
feedback hook and an empty timer pool. -/
theorem showDetectionFeedback_pulse_timing_witness :
    (∀ p ∈ emptyTimerWorld.timers, p.1 < emptyTimerWorld.nextId) ∧
    (let p₁ := showDetectionFeedback 1000 initialFeedbackState emptyTimerWorld
     let p₂ := showDetectionFeedback (1000 + 100) p₁.1 p₁.2
     p₁.1.barcodeDetected = true ∧
     (emptyTimerWorld.nextId, 1000 + 500) ∈ p₁.2.timers ∧
     (fireFlashTimer emptyTimerWorld.nextId p₁.1 p₁.2).1.barcodeDetected = false ∧
     p₂.1.barcodeDetected = true ∧
     fireFlashTimer emptyTimerWorld.nextId p₂.1 p₂.2 = (p₂.1, p₂.2) ∧
     (emptyTimerWorld.nextId + 1, (1000 + 100) + 500) ∈ p₂.2.timers ∧
     (fireFlashTimer (emptyTimerWorld.nextId + 1) p₂.1 p₂.2).1.barcodeDetected = false ∧
     fireFlashTimer (emptyTimerWorld.nextId + 1) p₂.1 (feedbackCleanup p₂.1 p₂.2) =
       (p₂.1, feedbackCleanup p₂.1 p₂.2)) :=
  ⟨by simp [emptyTimerWorld],
    showDetectionFeedback_pulse_timing initialFeedbackState emptyTimerWorld 1000
      (by simp [emptyTimerWorld])⟩

end Pantry
